import Mathlib

/-!
A shallow embedding of the view-tracking server core
(`src/server/index.js`): the per-item rate computation, the threshold
classifier, the alert deduplicator and dispatcher (`sendAlerts`), the
scheduled sweep, and the test-notification endpoint, together with
theorems checking the specification's claims against these definitions.
-/

namespace ViewTracking

/-- Per-channel recipient configuration stored in `videos.notifications`
(JSONB; each list may be missing/null, modelled as `Option`). -/
structure Notifications where
  emails : Option (List String)
  zaloIds : Option (List String)
  phoneNumbers : Option (List String)
deriving Repr, DecidableEq

/-- The empty configuration substituted by `video.notifications || {}`
(index.js:747). -/
def Notifications.empty : Notifications :=
  { emails := none, zaloIds := none, phoneNumbers := none }

/-- A row of the `videos` table (tracked item). -/
structure Video where
  id : String
  title : String
  thumbnail : String
  user_id : String
  warning_threshold : Int
  emergency_threshold : Int
  status : String
  notifications : Option Notifications
deriving Repr, DecidableEq

/-- A row of the `video_views` table (sample). Timestamps are integers
(minutes since some epoch). -/
structure ViewRow where
  video_id : String
  views : Int
  timestamp : Int
deriving Repr, DecidableEq

/-- A row of the `notifications_log` table (alert record). -/
structure LogRow where
  video_id : String
  video_title : String
  type : String
  recipient : String
  alert_level : String
  message : String
  status : String
  timestamp : Int
  views_per_minute : Int
  threshold : Int
  user_id : String
deriving Repr, DecidableEq

/-- The threshold classifier. Embeds the if/else-if chain that appears at
index.js:161-166 (list handler), index.js:324-328 (detail handler) and
index.js:731-735 (scheduler): `viewsPerMinute >= emergency_threshold`
gives emergency, else `>= warning_threshold` gives warning, else normal. -/
def classify (viewsPerMinute warningThreshold emergencyThreshold : Int) : String :=
  if viewsPerMinute ≥ emergencyThreshold then "emergency"
  else if viewsPerMinute ≥ warningThreshold then "warning"
  else "normal"

/-- Rate from a descending-by-time sample list, as in index.js:152-158:
`viewsData[0].views - viewsData[1].views` when two samples exist, 0
otherwise. -/
def viewsPerMinuteOf (viewsDesc : List ViewRow) : Int :=
  match viewsDesc with
  | latest :: previous :: _ => latest.views - previous.views
  | _ => 0

/-- The per-item snapshot assembled by the `GET /api/videos` handler
(index.js:141-179). -/
structure VideoStats where
  id : String
  title : String
  thumbnail : String
  status : String
  alertLevel : String
  currentViews : Int
  viewsPerMinute : Int
  warningThreshold : Int
  emergencyThreshold : Int
deriving Repr, DecidableEq

/-- `GET /api/videos`, per-video body (index.js:142-179). `viewsDesc` is
the item's sample history ordered by timestamp descending; the handler
queries it with `limit(2)`. -/
def videoWithStats (video : Video) (viewsDesc : List ViewRow) : VideoStats :=
  let viewsData := viewsDesc.take 2
  let vpm := viewsPerMinuteOf viewsData
  { id := video.id
    title := video.title
    thumbnail := video.thumbnail
    status := video.status
    alertLevel := classify vpm video.warning_threshold video.emergency_threshold
    currentViews := match viewsData.head? with
      | some latest => latest.views
      | none => 0
    viewsPerMinute := vpm
    warningThreshold := video.warning_threshold
    emergencyThreshold := video.emergency_threshold }

/-- One entry of the `viewHistory` array built by `GET /api/videos/:id`
(index.js:295-314). -/
structure HistoryEntry where
  timestamp : Int
  views : Int
  viewsPerMinute : Int
deriving Repr, DecidableEq

/-- The loop at index.js:296-305: for each adjacent pair (current,
previous) of the descending sample list, an entry whose rate is
`current.views - previous.views`. -/
def historyPairs : List ViewRow → List HistoryEntry
  | current :: previous :: rest =>
      { timestamp := current.timestamp
        views := current.views
        viewsPerMinute := current.views - previous.views }
        :: historyPairs (previous :: rest)
  | _ => []

/-- index.js:295-314: the adjacent-pair entries, then the oldest sample
with rate 0 when the list is non-empty, then reversed (index.js:341). -/
def viewHistoryOf (viewsData : List ViewRow) : List HistoryEntry :=
  let entries := historyPairs viewsData
  let entries := match viewsData.getLast? with
    | some oldest =>
        entries ++ [({ timestamp := oldest.timestamp, views := oldest.views,
                       viewsPerMinute := 0 } : HistoryEntry)]
    | none => entries
  entries.reverse

/-- The response body assembled by `GET /api/videos/:id`
(index.js:316-343). -/
structure VideoDetails where
  id : String
  title : String
  status : String
  alertLevel : String
  currentViews : Int
  viewsPerMinute : Int
  warningThreshold : Int
  emergencyThreshold : Int
  viewHistory : List HistoryEntry
deriving Repr, DecidableEq

/-- `GET /api/videos/:id` (index.js:286-343): samples are queried
descending with `limit(60)`; `currentViews`, `viewsPerMinute` and
`alertLevel` are computed only when at least two samples exist
(index.js:320-329), else they stay 0 / 0 / "normal". -/
def videoDetails (video : Video) (viewsDesc : List ViewRow) : VideoDetails :=
  let viewsData := viewsDesc.take 60
  let core : Int × Int × String :=
    match viewsData with
    | v0 :: v1 :: _ =>
        let vpm := v0.views - v1.views
        (v0.views, vpm,
          classify vpm video.warning_threshold video.emergency_threshold)
    | _ => (0, 0, "normal")
  { id := video.id
    title := video.title
    status := video.status
    alertLevel := core.2.2
    currentViews := core.1
    viewsPerMinute := core.2.1
    warningThreshold := video.warning_threshold
    emergencyThreshold := video.emergency_threshold
    viewHistory := viewHistoryOf viewsData }

/-- The fixed cooldown window of the deduplicator (index.js:753-754:
`fiveMinutesAgo.setMinutes(fiveMinutesAgo.getMinutes() - 5)`), in the
minute time unit of `ViewRow.timestamp` / `LogRow.timestamp`. -/
def cooldownMinutes : Int := 5

/-- The deduplication query of index.js:756-761: `notifications_log` rows
with this `video_id`, this `alert_level`, and `timestamp` strictly greater
than now minus five minutes. -/
def recentAlerts (log : List LogRow) (videoId alertLevel : String) (now : Int) :
    List LogRow :=
  log.filter fun r =>
    r.video_id == videoId && r.alert_level == alertLevel &&
      decide (now - cooldownMinutes < r.timestamp)

/-- The message text inserted by `sendAlerts` for every channel
(index.js:798-800 and its copies). -/
def alertMessage (alertLevel : String) (viewsPerMinute : Int) (title : String) :
    String :=
  alertLevel.toUpper ++ " Alert: " ++ toString viewsPerMinute ++
    " views/minute for " ++ title

/-- The `notifications_log` row inserted per send attempt by `sendAlerts`
(index.js:792-806 and its copies for zalo and sms): `status` is
"delivered" when the send returned true, "failed" otherwise; `threshold`
is the emergency threshold for an emergency alert, else the warning
threshold (index.js:748-751). -/
def alertLogRow (video : Video) (alertLevel : String) (viewsPerMinute : Int)
    (channel : String) (now : Int) (recipient : String) (success : Bool) : LogRow :=
  { video_id := video.id
    video_title := video.title
    type := channel
    recipient := recipient
    alert_level := alertLevel
    message := alertMessage alertLevel viewsPerMinute video.title
    status := if success then "delivered" else "failed"
    timestamp := now
    views_per_minute := viewsPerMinute
    threshold := if alertLevel == "emergency" then video.emergency_threshold
      else video.warning_threshold
    user_id := video.user_id }

/-- One send attempt made by the dispatcher: channel, recipient, and the
boolean outcome the channel's send function returned. -/
structure SendAttempt where
  channel : String
  recipient : String
  success : Bool
deriving Repr, DecidableEq

/-- One per-channel loop of `sendAlerts` (e.g. index.js:780-807): for each
recipient in order, invoke the channel send, then insert one log row whose
`status` records that recipient's outcome. `sendOutcome channel recipient`
models the boolean returned by the channel's send function. -/
def channelLoop (sendOutcome : String → String → Bool) (channel : String)
    (mk : String → Bool → LogRow) : List String → List SendAttempt × List LogRow
  | [] => ([], [])
  | r :: rest =>
      let success := sendOutcome channel r
      let tail := channelLoop sendOutcome channel mk rest
      ({ channel := channel, recipient := r, success := success } :: tail.1,
        mk r success :: tail.2)

/-- The guard on each channel of `sendAlerts` (index.js:779, 810, 841):
the loop runs only when the recipient list is present and non-empty. -/
def guardedChannel (sendOutcome : String → String → Bool) (channel : String)
    (mk : String → Bool → LogRow) (recips : Option (List String)) :
    List SendAttempt × List LogRow :=
  match recips with
  | some l => if 0 < l.length then channelLoop sendOutcome channel mk l else ([], [])
  | none => ([], [])

/-- The outcome of one `sendAlerts` call: the send attempts made, the log
rows inserted, and the console messages emitted. -/
structure AlertsResult where
  sends : List SendAttempt
  records : List LogRow
  logs : List String
deriving Repr, DecidableEq

/-- `sendAlerts` (index.js:746-871). `dedupeFails` models the
deduplication query returning a storage error (index.js:763-766): the
error is logged and the function returns with no sends and no inserts.
Otherwise, if any matching alert exists in the last five minutes the call
is suppressed (index.js:768-773); otherwise `video.notifications || {}`
is read and the three channel loops run in order email, zalo, sms. -/
def sendAlerts (video : Video) (alertLevel : String) (viewsPerMinute : Int)
    (log : List LogRow) (dedupeFails : Bool)
    (sendOutcome : String → String → Bool) (now : Int) : AlertsResult :=
  if dedupeFails then
    { sends := [], records := [], logs := ["Error checking recent alerts:"] }
  else if 0 < (recentAlerts log video.id alertLevel now).length then
    { sends := [], records := [],
      logs := ["Already sent " ++ alertLevel ++ " alert for video " ++ video.id ++
        " in the last 5 minutes. Skipping."] }
  else
    let nconf := video.notifications.getD Notifications.empty
    let emailPart := guardedChannel sendOutcome "email"
      (alertLogRow video alertLevel viewsPerMinute "email" now) nconf.emails
    let zaloPart := guardedChannel sendOutcome "zalo"
      (alertLogRow video alertLevel viewsPerMinute "zalo" now) nconf.zaloIds
    let smsPart := guardedChannel sendOutcome "sms"
      (alertLogRow video alertLevel viewsPerMinute "sms" now) nconf.phoneNumbers
    { sends := emailPart.1 ++ zaloPart.1 ++ smsPart.1
      records := emailPart.2 ++ zaloPart.2 ++ smsPart.2
      logs := ["Sending " ++ alertLevel ++ " alerts for video " ++ video.id] }

/-- Total number of configured recipients across the three channels, after
the `video.notifications || {}` substitution. -/
def totalRecipients (video : Video) : Nat :=
  let nconf := video.notifications.getD Notifications.empty
  (nconf.emails.getD []).length + (nconf.zaloIds.getD []).length +
    (nconf.phoneNumbers.getD []).length

/-- Outcome of the external measurement fetch for one item during a sweep
(index.js:687-697): the view count, "item not found upstream"
(`!videoStats`), or a thrown fetch failure caught by the per-item
try/catch. -/
inductive FetchOutcome where
  | ok (views : Int)
  | notFound
  | fetchFailure
deriving Repr, DecidableEq

/-- Mutable state touched by one scheduler sweep: the `video_views` store
(kept newest-first, matching the descending-timestamp query order), the
`notifications_log` store, the send attempts made, and the console
messages emitted. -/
structure TickState where
  views : List ViewRow
  log : List LogRow
  sends : List SendAttempt
  consoleLogs : List String
deriving Repr, DecidableEq

/-- The per-item body of the scheduled job (index.js:684-739), including
its try/catch: a fetch failure or a not-found item only logs and moves on;
otherwise the previous sample is queried (limit 1, newest first), the new
sample is inserted, and when a previous sample exists the rate is
classified against the thresholds and `sendAlerts` runs for a
non-normal tier. -/
def processVideo (fetch : String → FetchOutcome)
    (sendOutcome : String → String → Bool) (dedupeFails : Bool) (now : Int)
    (st : TickState) (video : Video) : TickState :=
  match fetch video.id with
  | .fetchFailure =>
      { st with consoleLogs := st.consoleLogs ++
          ["Error processing video " ++ video.id ++ ":"] }
  | .notFound =>
      { st with consoleLogs := st.consoleLogs ++
          ["Video not found: " ++ video.id] }
  | .ok currentViews =>
      let prevViewsData := (st.views.filter fun r => r.video_id == video.id).take 1
      let st1 := { st with
        views := ({ video_id := video.id, views := currentViews,
                    timestamp := now } : ViewRow) :: st.views }
      match prevViewsData with
      | [] => st1
      | prev :: _ =>
          let viewsPerMinute := currentViews - prev.views
          let st2 := { st1 with consoleLogs := st1.consoleLogs ++
              ["Video " ++ video.id ++ ": " ++ toString viewsPerMinute ++
                " views/minute"] }
          if viewsPerMinute ≥ video.emergency_threshold then
            let res := sendAlerts video "emergency" viewsPerMinute st2.log
              dedupeFails sendOutcome now
            { st2 with log := st2.log ++ res.records,
                       sends := st2.sends ++ res.sends,
                       consoleLogs := st2.consoleLogs ++ res.logs }
          else if viewsPerMinute ≥ video.warning_threshold then
            let res := sendAlerts video "warning" viewsPerMinute st2.log
              dedupeFails sendOutcome now
            { st2 with log := st2.log ++ res.records,
                       sends := st2.sends ++ res.sends,
                       consoleLogs := st2.consoleLogs ++ res.logs }
          else st2

/-- One full sweep of the scheduled job (index.js:671-744): the item list
is filtered to `status = "active"` (index.js:676-679) and each active item
is processed in order, each inside its own try/catch. -/
def runTick (fetch : String → FetchOutcome)
    (sendOutcome : String → String → Bool) (dedupeFails : Bool) (now : Int)
    (videos : List Video) (st : TickState) : TickState :=
  (videos.filter fun v => v.status == "active").foldl
    (processVideo fetch sendOutcome dedupeFails now) st

/-- The `videoInfo` object of the test-notification request body
(index.js:457, 510-522); `viewsPerMinute` may be absent
(`videoInfo.viewsPerMinute || 0`). -/
structure VideoInfo where
  id : String
  title : String
  viewsPerMinute : Option Int
deriving Repr, DecidableEq

/-- The `notifications_log` row inserted per recipient by the
test-notification endpoint (index.js:510-522): `alert_level` is always
"warning", `status` is always "delivered", `threshold` is always 100, and
the test is marked only inside the message text. -/
def testLogRow (channel : String) (videoInfo : VideoInfo) (userId : String)
    (now : Int) (recipient : String) : LogRow :=
  { video_id := videoInfo.id
    video_title := videoInfo.title
    type := channel
    recipient := recipient
    alert_level := "warning"
    message := "Test " ++ channel ++ " notification for " ++ videoInfo.title
    status := "delivered"
    timestamp := now
    views_per_minute := (videoInfo.viewsPerMinute).getD 0
    threshold := 100
    user_id := userId }

/-- Result of the `POST /api/notifications/test` handler: 400 for missing
parameters, 500 when the loop throws (invalid channel), else the send
attempts made and log rows inserted. -/
inductive TestResult where
  | badRequest
  | serverError (msg : String)
  | ok (sends : List SendAttempt) (records : List LogRow)
deriving Repr, DecidableEq

/-- The recipient loop of the test endpoint (index.js:477-523): per
recipient, switch on the channel name (an unknown name throws), invoke the
channel send — whose boolean result is discarded — then insert one
`testLogRow`. -/
def testRecipientLoop (channel : String) (videoInfo : VideoInfo) (userId : String)
    (sendOutcome : String → String → Bool) (now : Int) :
    List String → TestResult
  | [] => .ok [] []
  | r :: rest =>
      if channel == "email" || channel == "zalo" || channel == "sms" then
        let success := sendOutcome channel r
        match testRecipientLoop channel videoInfo userId sendOutcome now rest with
        | .ok s recs =>
            .ok ({ channel := channel, recipient := r, success := success } :: s)
              (testLogRow channel videoInfo userId now r :: recs)
        | other => other
      else .serverError ("Invalid notification type: " ++ channel)

/-- `POST /api/notifications/test` (index.js:455-530). Missing `type`,
`recipients`, an empty recipient list, or missing `videoInfo` give 400
(index.js:459-461). The item-ownership query runs but its result is
ignored (the rejection is commented out, index.js:471-475), modelled by
the unused `ownershipOk` argument; no deduplication query is made at
all. -/
def testNotificationHandler (channel : Option String)
    (recipients : Option (List String)) (videoInfo : Option VideoInfo)
    (userId : String) (_ownershipOk : Bool)
    (sendOutcome : String → String → Bool) (now : Int) : TestResult :=
  match channel, recipients, videoInfo with
  | some c, some rs, some vi =>
      if rs.length == 0 then .badRequest
      else testRecipientLoop c vi userId sendOutcome now rs
  | _, _, _ => .badRequest

end ViewTracking

namespace ViewTracking

/-- C1: with emergency > warning > 0, the classifier returns emergency
when r ≥ emergency, warning when warning ≤ r < emergency, and normal when
r < warning; ties resolve to the higher tier (the bounds are ≥), and the
result is a pure function of (r, warning, emergency). -/
theorem classify_tiers (r w e : Int) (_hw : 0 < w) (he : w < e) :
    (e ≤ r → classify r w e = "emergency") ∧
    (w ≤ r → r < e → classify r w e = "warning") ∧
    (r < w → classify r w e = "normal") ∧
    (classify r w e = classify r w e) := by
  refine ⟨?_, ?_, ?_, rfl⟩
  · intro h
    simp [classify, h]
  · intro h1 h2
    simp [classify, h1, not_le.mpr h2]
  · intro h
    have h2 : r < e := lt_trans h he
    simp [classify, not_le.mpr h, not_le.mpr h2]

/-- Witness for `classify_tiers` at (r, w, e) = (30, 30, 80): the tie with
the warning threshold resolves to warning. -/
theorem classify_tiers_witness :
    (0 : Int) < 30 ∧ (30 : Int) < 80 ∧ classify 30 30 80 = "warning" := by
  refine ⟨by decide, by decide, ?_⟩
  exact (classify_tiers 30 30 80 (by decide) (by decide)).2.1 (by decide) (by decide)

/-- C2: the rate is exactly `latest.measurement - previous.measurement`,
with no smoothing or clamping; when the measurement decreased the rate is
negative and, under thresholds with emergency > warning > 0, the snapshot
tier is normal. -/
theorem rate_is_exact_difference (latest previous : ViewRow) (rest : List ViewRow)
    (w e : Int) (hw : 0 < w) (he : w < e) :
    viewsPerMinuteOf (latest :: previous :: rest) = latest.views - previous.views ∧
    (latest.views < previous.views →
      viewsPerMinuteOf (latest :: previous :: rest) < 0 ∧
      classify (viewsPerMinuteOf (latest :: previous :: rest)) w e = "normal") := by
  refine ⟨rfl, fun hdec => ?_⟩
  have hneg : latest.views - previous.views < 0 := by omega
  refine ⟨hneg, ?_⟩
  have hnw : latest.views - previous.views < w := lt_trans hneg hw
  have hne : latest.views - previous.views < e := lt_trans hnw he
  simp [viewsPerMinuteOf, classify, not_le.mpr hnw, not_le.mpr hne]

/-- Witness for `rate_is_exact_difference`: samples [140 at t0, 100 at t1]
read newest-first as (100, 140); the rate is -40 and the tier normal. -/
theorem rate_is_exact_difference_witness :
    viewsPerMinuteOf [⟨"v", 100, 1⟩, ⟨"v", 140, 0⟩] = -40 ∧
    classify (viewsPerMinuteOf [⟨"v", 100, 1⟩, ⟨"v", 140, 0⟩]) 30 80 = "normal" := by
  have h := rate_is_exact_difference ⟨"v", 100, 1⟩ ⟨"v", 140, 0⟩ [] 30 80
      (by decide) (by decide)
  exact ⟨by simpa using h.1, (h.2 (by decide)).2⟩

/-- C3: with fewer than two samples in the history, the rate is 0 and,
when emergency > warning > 0, the reported tier is normal — both in the
list snapshot (`GET /api/videos`) and in the per-item detail query
(`GET /api/videos/:id`). -/
theorem few_samples_rate_zero (video : Video) (viewsDesc : List ViewRow)
    (hlen : viewsDesc.length < 2)
    (hw : 0 < video.warning_threshold)
    (he : video.warning_threshold < video.emergency_threshold) :
    (videoWithStats video viewsDesc).viewsPerMinute = 0 ∧
    (videoWithStats video viewsDesc).alertLevel = "normal" ∧
    (videoDetails video viewsDesc).viewsPerMinute = 0 ∧
    (videoDetails video viewsDesc).alertLevel = "normal" := by
  have hz : classify 0 video.warning_threshold video.emergency_threshold = "normal" := by
    have h2 : (0 : Int) < video.emergency_threshold := lt_trans hw he
    simp [classify, not_le.mpr hw, not_le.mpr h2]
  match viewsDesc, hlen with
  | [], _ =>
      exact ⟨rfl, by simpa [videoWithStats, viewsPerMinuteOf] using hz, rfl, rfl⟩
  | [v], _ =>
      exact ⟨rfl, by simpa [videoWithStats, viewsPerMinuteOf] using hz, rfl, rfl⟩

theorem channelLoop_eq (sendOutcome : String → String → Bool) (channel : String)
    (mk : String → Bool → LogRow) (l : List String) :
    channelLoop sendOutcome channel mk l =
      (l.map fun r =>
        ({ channel := channel, recipient := r,
           success := sendOutcome channel r } : SendAttempt),
       l.map fun r => mk r (sendOutcome channel r)) := by
  induction l with
  | nil => rfl
  | cons r rest ih => simp [channelLoop, ih]

theorem guardedChannel_eq (sendOutcome : String → String → Bool) (channel : String)
    (mk : String → Bool → LogRow) (recips : Option (List String)) :
    guardedChannel sendOutcome channel mk recips =
      ((recips.getD []).map fun r =>
        ({ channel := channel, recipient := r,
           success := sendOutcome channel r } : SendAttempt),
       (recips.getD []).map fun r => mk r (sendOutcome channel r)) := by
  match recips with
  | none => rfl
  | some [] => rfl
  | some (r :: rest) => simp [guardedChannel, channelLoop_eq]

theorem sendAlerts_dispatch (video : Video) (alertLevel : String)
    (viewsPerMinute : Int) (log : List LogRow)
    (sendOutcome : String → String → Bool) (now : Int)
    (hno : recentAlerts log video.id alertLevel now = []) :
    sendAlerts video alertLevel viewsPerMinute log false sendOutcome now =
      { sends :=
          (((video.notifications.getD Notifications.empty).emails.getD []).map fun r =>
            ({ channel := "email", recipient := r,
               success := sendOutcome "email" r } : SendAttempt)) ++
          (((video.notifications.getD Notifications.empty).zaloIds.getD []).map fun r =>
            ({ channel := "zalo", recipient := r,
               success := sendOutcome "zalo" r } : SendAttempt)) ++
          (((video.notifications.getD Notifications.empty).phoneNumbers.getD []).map fun r =>
            ({ channel := "sms", recipient := r,
               success := sendOutcome "sms" r } : SendAttempt))
        records :=
          (((video.notifications.getD Notifications.empty).emails.getD []).map fun r =>
            alertLogRow video alertLevel viewsPerMinute "email" now r
              (sendOutcome "email" r)) ++
          (((video.notifications.getD Notifications.empty).zaloIds.getD []).map fun r =>
            alertLogRow video alertLevel viewsPerMinute "zalo" now r
              (sendOutcome "zalo" r)) ++
          (((video.notifications.getD Notifications.empty).phoneNumbers.getD []).map fun r =>
            alertLogRow video alertLevel viewsPerMinute "sms" now r
              (sendOutcome "sms" r))
        logs := ["Sending " ++ alertLevel ++ " alerts for video " ++ video.id] } := by
  simp [sendAlerts, hno, guardedChannel_eq]

theorem sendAlerts_empty_config (video : Video) (alertLevel : String)
    (viewsPerMinute : Int) (log : List LogRow) (dedupeFails : Bool)
    (sendOutcome : String → String → Bool) (now : Int)
    (hempty : totalRecipients video = 0) :
    (sendAlerts video alertLevel viewsPerMinute log dedupeFails sendOutcome now).sends
      = [] ∧
    (sendAlerts video alertLevel viewsPerMinute log dedupeFails sendOutcome now).records
      = [] := by
  have he : ((video.notifications.getD Notifications.empty).emails.getD []) = [] := by
    have := hempty
    simp only [totalRecipients] at this
    exact List.length_eq_zero.mp (by omega)
  have hz : ((video.notifications.getD Notifications.empty).zaloIds.getD []) = [] := by
    have := hempty
    simp only [totalRecipients] at this
    exact List.length_eq_zero.mp (by omega)
  have hp : ((video.notifications.getD Notifications.empty).phoneNumbers.getD []) = [] := by
    have := hempty
    simp only [totalRecipients] at this
    exact List.length_eq_zero.mp (by omega)
  cases dedupeFails with
  | true => exact ⟨rfl, rfl⟩
  | false =>
    by_cases hL : recentAlerts log video.id alertLevel now = []
    · rw [sendAlerts_dispatch video alertLevel viewsPerMinute log sendOutcome now hL]
      simp [he, hz, hp]
    · have hlen : 0 < (recentAlerts log video.id alertLevel now).length :=
        List.length_pos.mpr hL
      simp [sendAlerts, hlen]

theorem processVideo_preserves (fetch : String → FetchOutcome)
    (sendOutcome : String → String → Bool) (dedupeFails : Bool) (now : Int)
    (st : TickState) (v : Video)
    (h : ∀ lvl vpm log,
      (sendAlerts v lvl vpm log dedupeFails sendOutcome now).records = [] ∧
      (sendAlerts v lvl vpm log dedupeFails sendOutcome now).sends = []) :
    (processVideo fetch sendOutcome dedupeFails now st v).log = st.log ∧
    (processVideo fetch sendOutcome dedupeFails now st v).sends = st.sends := by
  cases hf : fetch v.id with
  | fetchFailure => simp [processVideo, hf]
  | notFound => simp [processVideo, hf]
  | ok currentViews =>
    simp only [processVideo, hf]
    cases hp : (st.views.filter fun r => r.video_id == v.id).take 1 with
    | nil => exact ⟨rfl, rfl⟩
    | cons prev rest =>
      simp only []
      split
      · simp [(h _ _ _).1, (h _ _ _).2]
      · split
        · simp [(h _ _ _).1, (h _ _ _).2]
        · exact ⟨rfl, rfl⟩

/-- Witness for `few_samples_rate_zero` at a one-sample history. -/
theorem few_samples_rate_zero_witness :
    (videoWithStats ⟨"v", "t", "th", "u", 30, 80, "active", none⟩ [⟨"v", 500, 0⟩]).viewsPerMinute = 0 ∧
    (videoWithStats ⟨"v", "t", "th", "u", 30, 80, "active", none⟩ [⟨"v", 500, 0⟩]).alertLevel = "normal" ∧
    (videoDetails ⟨"v", "t", "th", "u", 30, 80, "active", none⟩ [⟨"v", 500, 0⟩]).viewsPerMinute = 0 ∧
    (videoDetails ⟨"v", "t", "th", "u", 30, 80, "active", none⟩ [⟨"v", 500, 0⟩]).alertLevel = "normal" :=
  few_samples_rate_zero ⟨"v", "t", "th", "u", 30, 80, "active", none⟩ [⟨"v", 500, 0⟩]
    (by decide) (by decide) (by decide)

theorem processVideo_fetchFailure (fetch : String → FetchOutcome)
    (sendOutcome : String → String → Bool) (df : Bool) (now : Int)
    (st : TickState) (v : Video) (h : fetch v.id = FetchOutcome.fetchFailure) :
    processVideo fetch sendOutcome df now st v =
      { st with consoleLogs := st.consoleLogs ++
          ["Error processing video " ++ v.id ++ ":"] } := by
  simp [processVideo, h]

theorem processVideo_data_congr (fetch : String → FetchOutcome)
    (sendOutcome : String → String → Bool) (df : Bool) (now : Int)
    (st₁ st₂ : TickState) (v : Video)
    (hv : st₁.views = st₂.views) (hl : st₁.log = st₂.log)
    (hs : st₁.sends = st₂.sends) :
    (processVideo fetch sendOutcome df now st₁ v).views =
      (processVideo fetch sendOutcome df now st₂ v).views ∧
    (processVideo fetch sendOutcome df now st₁ v).log =
      (processVideo fetch sendOutcome df now st₂ v).log ∧
    (processVideo fetch sendOutcome df now st₁ v).sends =
      (processVideo fetch sendOutcome df now st₂ v).sends := by
  cases hf : fetch v.id with
  | fetchFailure => simp [processVideo, hf, hv, hl, hs]
  | notFound => simp [processVideo, hf, hv, hl, hs]
  | ok currentViews =>
    simp only [processVideo, hf, hv, hl, hs]
    cases hp : (st₂.views.filter fun r => r.video_id == v.id).take 1 with
    | nil => exact ⟨rfl, rfl, rfl⟩
    | cons prev rest =>
      simp only []
      split <;> · first
        | exact ⟨rfl, rfl, rfl⟩
        | (split <;> exact ⟨rfl, rfl, rfl⟩)

theorem foldl_data_congr (fetch : String → FetchOutcome)
    (sendOutcome : String → String → Bool) (df : Bool) (now : Int)
    (l : List Video) (st₁ st₂ : TickState)
    (hv : st₁.views = st₂.views) (hl : st₁.log = st₂.log)
    (hs : st₁.sends = st₂.sends) :
    (l.foldl (processVideo fetch sendOutcome df now) st₁).views =
      (l.foldl (processVideo fetch sendOutcome df now) st₂).views ∧
    (l.foldl (processVideo fetch sendOutcome df now) st₁).log =
      (l.foldl (processVideo fetch sendOutcome df now) st₂).log ∧
    (l.foldl (processVideo fetch sendOutcome df now) st₁).sends =
      (l.foldl (processVideo fetch sendOutcome df now) st₂).sends := by
  induction l generalizing st₁ st₂ with
  | nil => exact ⟨hv, hl, hs⟩
  | cons v rest ih =>
    simp only [List.foldl_cons]
    obtain ⟨h1, h2, h3⟩ :=
      processVideo_data_congr fetch sendOutcome df now st₁ st₂ v hv hl hs
    exact ih _ _ h1 h2 h3

theorem processVideo_consoleLogs_mono (fetch : String → FetchOutcome)
    (sendOutcome : String → String → Bool) (df : Bool) (now : Int)
    (st : TickState) (v : Video) (x : String) (h : x ∈ st.consoleLogs) :
    x ∈ (processVideo fetch sendOutcome df now st v).consoleLogs := by
  cases hf : fetch v.id with
  | fetchFailure => simp [processVideo, hf, h]
  | notFound => simp [processVideo, hf, h]
  | ok currentViews =>
    simp only [processVideo, hf]
    cases hp : (st.views.filter fun r => r.video_id == v.id).take 1 with
    | nil => exact h
    | cons prev rest =>
      simp only []
      split
      · simp [h]
      · split
        · simp [h]
        · simp [h]

theorem foldl_consoleLogs_mono (fetch : String → FetchOutcome)
    (sendOutcome : String → String → Bool) (df : Bool) (now : Int)
    (l : List Video) (st : TickState) (x : String) (h : x ∈ st.consoleLogs) :
    x ∈ (l.foldl (processVideo fetch sendOutcome df now) st).consoleLogs := by
  induction l generalizing st with
  | nil => exact h
  | cons v rest ih =>
    simp only [List.foldl_cons]
    exact ih _ (processVideo_consoleLogs_mono fetch sendOutcome df now st v x h)

/-- C4: when the deduplication query succeeds and at least one recipient
is configured, an alert evaluation for (item, tier) performs no sends and
appends no records if and only if some log row for the same item with the
same tier has a timestamp within the last five minutes; a row of a
different tier never causes suppression (it fails the iff's right side, so
the evaluation dispatches). -/
theorem alert_suppression_iff (video : Video) (alertLevel : String)
    (viewsPerMinute : Int) (log : List LogRow)
    (sendOutcome : String → String → Bool) (now : Int)
    (hrec : 0 < totalRecipients video) :
    ((sendAlerts video alertLevel viewsPerMinute log false sendOutcome now).sends = [] ∧
     (sendAlerts video alertLevel viewsPerMinute log false sendOutcome now).records = []) ↔
    ∃ r ∈ log, r.video_id = video.id ∧ r.alert_level = alertLevel ∧
      now - cooldownMinutes < r.timestamp := by
  by_cases hL : recentAlerts log video.id alertLevel now = []
  · rw [sendAlerts_dispatch video alertLevel viewsPerMinute log sendOutcome now hL]
    simp only [totalRecipients] at hrec
    constructor
    · intro ⟨_, hrecords⟩
      exfalso
      have hlen := congrArg List.length hrecords
      simp only [List.length_append, List.length_map, List.length_nil] at hlen
      omega
    · intro ⟨r, hrl, h1, h2, h3⟩
      exfalso
      have hmem : r ∈ recentAlerts log video.id alertLevel now :=
        List.mem_filter.mpr ⟨hrl, by simp [h1, h2, h3]⟩
      rw [hL] at hmem
      exact List.not_mem_nil r hmem
  · have hlen : 0 < (recentAlerts log video.id alertLevel now).length :=
      List.length_pos.mpr hL
    have hLHS :
        (sendAlerts video alertLevel viewsPerMinute log false sendOutcome now).sends = [] ∧
        (sendAlerts video alertLevel viewsPerMinute log false sendOutcome now).records = [] := by
      simp [sendAlerts, hlen]
    obtain ⟨r, hr⟩ := List.exists_mem_of_ne_nil _ hL
    simp only [recentAlerts, List.mem_filter, Bool.and_eq_true, beq_iff_eq,
      decide_eq_true_eq] at hr
    exact iff_of_true hLHS ⟨r, hr.1, hr.2.1.1, hr.2.1.2, hr.2.2⟩

/-- Witness for `alert_suppression_iff`: one configured email recipient,
suppression decided against a singleton log. -/
theorem alert_suppression_iff_witness :
    0 < totalRecipients ⟨"v", "T", "th", "u", 30, 80, "active",
      some ⟨some ["a@b"], none, none⟩⟩ ∧
    (((sendAlerts ⟨"v", "T", "th", "u", 30, 80, "active",
        some ⟨some ["a@b"], none, none⟩⟩ "emergency" 90
        [⟨"v", "T", "email", "a@b", "emergency", "m", "delivered", 8, 90, 80, "u"⟩]
        false (fun _ _ => true) 10).sends = [] ∧
      (sendAlerts ⟨"v", "T", "th", "u", 30, 80, "active",
        some ⟨some ["a@b"], none, none⟩⟩ "emergency" 90
        [⟨"v", "T", "email", "a@b", "emergency", "m", "delivered", 8, 90, 80, "u"⟩]
        false (fun _ _ => true) 10).records = []) ↔
      ∃ r ∈ [(⟨"v", "T", "email", "a@b", "emergency", "m", "delivered", 8, 90,
          80, "u"⟩ : LogRow)],
        r.video_id = "v" ∧ r.alert_level = "emergency" ∧
          (10 : Int) - cooldownMinutes < r.timestamp) :=
  ⟨by decide,
    alert_suppression_iff ⟨"v", "T", "th", "u", 30, 80, "active",
      some ⟨some ["a@b"], none, none⟩⟩ "emergency" 90
      [⟨"v", "T", "email", "a@b", "emergency", "m", "delivered", 8, 90, 80, "u"⟩]
      (fun _ _ => true) 10 (by decide)⟩

/-- C5: a storage error on the deduplication query is fail-closed: the
call performs no sends, appends no records, and only emits the warning
log line; and a sweep running under that failing store still leaves the
alert log and send list untouched while remaining a total function of the
state — it never aborts. -/
theorem dedupe_failure_fail_closed (video : Video) (alertLevel : String)
    (viewsPerMinute : Int) (log : List LogRow)
    (sendOutcome : String → String → Bool) (now : Int) :
    sendAlerts video alertLevel viewsPerMinute log true sendOutcome now =
      { sends := [], records := [],
        logs := ["Error checking recent alerts:"] } ∧
    ∀ (fetch : String → FetchOutcome) (st : TickState) (v : Video),
      (processVideo fetch sendOutcome true now st v).log = st.log ∧
      (processVideo fetch sendOutcome true now st v).sends = st.sends :=
  ⟨rfl, fun fetch st v =>
    processVideo_preserves fetch sendOutcome true now st v
      (fun _ _ _ => ⟨rfl, rfl⟩)⟩

/-- C7: a non-suppressed dispatch fans out to every configured recipient
of all three channels (in order email, zalo, sms), appends exactly one
record per attempt (so exactly `totalRecipients` records), and each
record's status is "delivered" precisely when that recipient's send
returned true — one recipient's failure never removes another's send or
record, since the shape of the fan-out does not depend on the outcomes. -/
theorem dispatcher_one_record_per_attempt (video : Video) (alertLevel : String)
    (viewsPerMinute : Int) (log : List LogRow)
    (sendOutcome : String → String → Bool) (now : Int)
    (hno : recentAlerts log video.id alertLevel now = []) :
    (sendAlerts video alertLevel viewsPerMinute log false sendOutcome now).sends =
      (((video.notifications.getD Notifications.empty).emails.getD []).map fun r =>
        ({ channel := "email", recipient := r,
           success := sendOutcome "email" r } : SendAttempt)) ++
      (((video.notifications.getD Notifications.empty).zaloIds.getD []).map fun r =>
        ({ channel := "zalo", recipient := r,
           success := sendOutcome "zalo" r } : SendAttempt)) ++
      (((video.notifications.getD Notifications.empty).phoneNumbers.getD []).map fun r =>
        ({ channel := "sms", recipient := r,
           success := sendOutcome "sms" r } : SendAttempt)) ∧
    (sendAlerts video alertLevel viewsPerMinute log false sendOutcome now).records.length =
      totalRecipients video ∧
    ∀ rec ∈ (sendAlerts video alertLevel viewsPerMinute log false sendOutcome now).records,
      rec.status = if sendOutcome rec.type rec.recipient then "delivered" else "failed" := by
  have hd := sendAlerts_dispatch video alertLevel viewsPerMinute log sendOutcome now hno
  refine ⟨by rw [hd], ?_, ?_⟩
  · rw [hd]
    simp only [List.length_append, List.length_map, totalRecipients]
  · rw [hd]
    intro rec hrec
    simp only [List.mem_append, List.mem_map] at hrec
    rcases hrec with (⟨r, _, hrec⟩ | ⟨r, _, hrec⟩) | ⟨r, _, hrec⟩ <;>
      simp [← hrec, alertLogRow]

/-- Witness for `dispatcher_one_record_per_attempt`: two recipients across
two channels against an empty log. -/
theorem dispatcher_one_record_per_attempt_witness :
    recentAlerts [] "v" "warning" 10 = [] ∧
    (sendAlerts ⟨"v", "T", "th", "u", 30, 80, "active",
        some ⟨some ["a@b"], none, some ["555"]⟩⟩ "warning" 40 [] false
        (fun ch _ => ch == "email") 10).records.length =
      totalRecipients ⟨"v", "T", "th", "u", 30, 80, "active",
        some ⟨some ["a@b"], none, some ["555"]⟩⟩ :=
  ⟨rfl,
    (dispatcher_one_record_per_attempt ⟨"v", "T", "th", "u", 30, 80, "active",
      some ⟨some ["a@b"], none, some ["555"]⟩⟩ "warning" 40 []
      (fun ch _ => ch == "email") 10 rfl).2.1⟩

/-- C10: an item whose recipient configuration is absent, null-valued, or
all-empty yields zero send attempts and zero appended records from any
`sendAlerts` call, and a tick over it (threshold-crossing or not) leaves
the alert log and send list unchanged while completing normally. -/
theorem empty_config_no_alerts (video : Video)
    (hempty : totalRecipients video = 0) :
    (∀ (alertLevel : String) (viewsPerMinute : Int) (log : List LogRow)
        (dedupeFails : Bool) (sendOutcome : String → String → Bool) (now : Int),
      (sendAlerts video alertLevel viewsPerMinute log dedupeFails sendOutcome now).sends
        = [] ∧
      (sendAlerts video alertLevel viewsPerMinute log dedupeFails sendOutcome now).records
        = []) ∧
    (∀ (fetch : String → FetchOutcome) (sendOutcome : String → String → Bool)
        (dedupeFails : Bool) (now : Int) (st : TickState),
      (processVideo fetch sendOutcome dedupeFails now st video).log = st.log ∧
      (processVideo fetch sendOutcome dedupeFails now st video).sends = st.sends) := by
  constructor
  · intro lvl vpm log df s n
    exact sendAlerts_empty_config video lvl vpm log df s n hempty
  · intro fetch s df n st
    refine processVideo_preserves fetch s df n st video (fun lvl vpm log => ?_)
    exact ⟨(sendAlerts_empty_config video lvl vpm log df s n hempty).2,
      (sendAlerts_empty_config video lvl vpm log df s n hempty).1⟩

/-- Witness for `empty_config_no_alerts`: an item with no notifications
object, crossing its emergency threshold during a tick with one prior
sample, appends nothing to the alert log. -/
theorem empty_config_no_alerts_witness :
    totalRecipients ⟨"v", "T", "th", "u", 30, 80, "active", none⟩ = 0 ∧
    (processVideo (fun _ => FetchOutcome.ok 1000) (fun _ _ => true) false 1
      ⟨[⟨"v", 0, 0⟩], [], [], []⟩
      ⟨"v", "T", "th", "u", 30, 80, "active", none⟩).log = [] := by
  refine ⟨by decide, ?_⟩
  have h := (empty_config_no_alerts ⟨"v", "T", "th", "u", 30, 80, "active", none⟩
    (by decide)).2 (fun _ => FetchOutcome.ok 1000) (fun _ _ => true) false 1
    ⟨[⟨"v", 0, 0⟩], [], [], []⟩
  simpa using h.1

/-- C6: a fetch failure for one item is caught: the sweep's sample store,
alert log and send list are exactly what a sweep without that item would
produce (so every other item, before or after it, is fully processed), and
when the item is active the failure is logged to the console. -/
theorem failing_item_isolated (fetch : String → FetchOutcome)
    (sendOutcome : String → String → Bool) (df : Bool) (now : Int)
    (pre post : List Video) (A : Video) (st : TickState)
    (hA : fetch A.id = FetchOutcome.fetchFailure) :
    ((runTick fetch sendOutcome df now (pre ++ A :: post) st).views =
      (runTick fetch sendOutcome df now (pre ++ post) st).views ∧
     (runTick fetch sendOutcome df now (pre ++ A :: post) st).log =
      (runTick fetch sendOutcome df now (pre ++ post) st).log ∧
     (runTick fetch sendOutcome df now (pre ++ A :: post) st).sends =
      (runTick fetch sendOutcome df now (pre ++ post) st).sends) ∧
    (A.status = "active" →
      ("Error processing video " ++ A.id ++ ":") ∈
        (runTick fetch sendOutcome df now (pre ++ A :: post) st).consoleLogs) := by
  by_cases hact : A.status = "active"
  · have hb : (A.status == "active") = true := by simp [hact]
    have hfil : (pre ++ A :: post).filter (fun v => v.status == "active") =
        pre.filter (fun v => v.status == "active") ++
          A :: post.filter (fun v => v.status == "active") := by
      simp [List.filter_append, List.filter_cons, hb]
    have hfil2 : (pre ++ post).filter (fun v => v.status == "active") =
        pre.filter (fun v => v.status == "active") ++
          post.filter (fun v => v.status == "active") := by
      simp [List.filter_append]
    constructor
    · simp only [runTick, hfil, hfil2, List.foldl_append, List.foldl_cons]
      rw [processVideo_fetchFailure fetch sendOutcome df now _ A hA]
      exact foldl_data_congr fetch sendOutcome df now _ _ _ rfl rfl rfl
    · intro _
      simp only [runTick, hfil, List.foldl_append, List.foldl_cons]
      apply foldl_consoleLogs_mono
      rw [processVideo_fetchFailure fetch sendOutcome df now _ A hA]
      simp
  · have hb : (A.status == "active") = false := by simp [hact]
    have hfil : (pre ++ A :: post).filter (fun v => v.status == "active") =
        (pre ++ post).filter (fun v => v.status == "active") := by
      simp [List.filter_append, List.filter_cons, hb]
    refine ⟨?_, fun h => absurd h hact⟩
    simp [runTick, hfil]

/-- Witness for `failing_item_isolated`: item A's fetch throws while item
B's succeeds; the sweep over [A, B] leaves the same alert log as the sweep
over [B] alone. -/
theorem failing_item_isolated_witness :
    (fun id => if id == "A" then FetchOutcome.fetchFailure else FetchOutcome.ok 200) "A"
      = FetchOutcome.fetchFailure ∧
    (runTick (fun id => if id == "A" then FetchOutcome.fetchFailure
        else FetchOutcome.ok 200) (fun _ _ => true) false 1
      ([] ++ (⟨"A", "TA", "th", "u", 30, 80, "active",
          some ⟨some ["a@b"], none, none⟩⟩ : Video) ::
        [⟨"B", "TB", "th", "u", 30, 80, "active",
          some ⟨some ["a@b"], none, none⟩⟩])
      ⟨[⟨"B", 0, 0⟩], [], [], []⟩).log =
    (runTick (fun id => if id == "A" then FetchOutcome.fetchFailure
        else FetchOutcome.ok 200) (fun _ _ => true) false 1
      ([] ++ [⟨"B", "TB", "th", "u", 30, 80, "active",
          some ⟨some ["a@b"], none, none⟩⟩])
      ⟨[⟨"B", 0, 0⟩], [], [], []⟩).log :=
  ⟨by decide,
    (failing_item_isolated (fun id => if id == "A" then FetchOutcome.fetchFailure
        else FetchOutcome.ok 200) (fun _ _ => true) false 1
      [] [⟨"B", "TB", "th", "u", 30, 80, "active", some ⟨some ["a@b"], none, none⟩⟩]
      ⟨"A", "TA", "th", "u", 30, 80, "active", some ⟨some ["a@b"], none, none⟩⟩
      ⟨[⟨"B", 0, 0⟩], [], [], []⟩ (by decide)).1.2.1⟩

theorem testRecipientLoop_eq (channel : String) (vi : VideoInfo) (userId : String)
    (sendOutcome : String → String → Bool) (now : Int) (rs : List String)
    (hch : (channel == "email" || channel == "zalo" || channel == "sms") = true) :
    testRecipientLoop channel vi userId sendOutcome now rs =
      .ok (rs.map fun r =>
            ({ channel := channel, recipient := r,
               success := sendOutcome channel r } : SendAttempt))
        (rs.map (testLogRow channel vi userId now)) := by
  induction rs with
  | nil => rfl
  | cons r rest ih => simp [testRecipientLoop, hch, ih]

/-- C8 counterexample: a test dispatch whose send fails (the send function
returns false) still logs the record with status "delivered" — not the
actual delivery outcome — and with threshold 100 rather than the item's
threshold at the time, while the normal dispatcher would have recorded the
same failed attempt as "failed". -/
theorem test_mode_outcome_cex :
    testNotificationHandler (some "email") (some ["a@b"])
        (some ⟨"v", "T", some 40⟩) "u" true (fun _ _ => false) 7 =
      TestResult.ok [⟨"email", "a@b", false⟩]
        [⟨"v", "T", "email", "a@b", "warning",
          "Test email notification for T", "delivered", 7, 40, 100, "u"⟩] ∧
    (alertLogRow ⟨"v", "T", "th", "u", 30, 80, "active",
        some ⟨some ["a@b"], none, none⟩⟩ "warning" 40 "email" 7 "a@b" false).status
      = "failed" ∧
    ("delivered" : String) ≠ "failed" := by
  refine ⟨by decide, rfl, by decide⟩

/-- C8 (amended): a test-mode invocation bypasses the deduplicator (no
alert-log query is made) and the item-ownership check (the result is the
same for any ownership outcome), attempts one send per recipient and logs
one record per recipient, tagged as a test only inside the message text;
but unlike normal dispatch the record's delivery-outcome field is always
"delivered" regardless of the actual send result, its tier is always
"warning", and its threshold field is the constant 100 rather than the
item's configured threshold. -/
theorem test_mode_dispatch (channel : String) (rs : List String) (vi : VideoInfo)
    (userId : String) (ownershipOk : Bool)
    (sendOutcome : String → String → Bool) (now : Int)
    (hch : channel = "email" ∨ channel = "zalo" ∨ channel = "sms")
    (hrs : rs ≠ []) :
    testNotificationHandler (some channel) (some rs) (some vi) userId
        ownershipOk sendOutcome now =
      TestResult.ok
        (rs.map fun r =>
          ({ channel := channel, recipient := r,
             success := sendOutcome channel r } : SendAttempt))
        (rs.map (testLogRow channel vi userId now)) ∧
    ∀ rec ∈ rs.map (testLogRow channel vi userId now),
      rec.alert_level = "warning" ∧ rec.status = "delivered" ∧
      rec.threshold = 100 ∧
      rec.message = "Test " ++ channel ++ " notification for " ++ vi.title := by
  have hb : (channel == "email" || channel == "zalo" || channel == "sms") = true := by
    rcases hch with h | h | h <;> simp [h]
  have hlen : (rs.length == 0) = false := by
    cases rs with
    | nil => exact absurd rfl hrs
    | cons a l => rfl
  constructor
  · simp only [testNotificationHandler, hlen, Bool.false_eq_true, if_false]
    exact testRecipientLoop_eq channel vi userId sendOutcome now rs hb
  · intro rec hrec
    simp only [List.mem_map] at hrec
    obtain ⟨r, _, hrec⟩ := hrec
    rw [← hrec]
    exact ⟨rfl, rfl, rfl, rfl⟩

/-- Witness for `test_mode_dispatch`: one email recipient, arbitrary
ownership outcome. -/
theorem test_mode_dispatch_witness :
    (("email" = "email" ∨ ("email" : String) = "zalo" ∨ ("email" : String) = "sms") ∧
      (["x"] : List String) ≠ []) ∧
    testNotificationHandler (some "email") (some ["x"]) (some ⟨"v", "T", none⟩)
        "u" false (fun _ _ => true) 0 =
      TestResult.ok
        (["x"].map fun r =>
          ({ channel := "email", recipient := r, success := true } : SendAttempt))
        (["x"].map (testLogRow "email" ⟨"v", "T", none⟩ "u" 0)) :=
  ⟨⟨Or.inl rfl, by decide⟩,
    (test_mode_dispatch "email" ["x"] ⟨"v", "T", none⟩ "u" false
      (fun _ _ => true) 0 (Or.inl rfl) (by decide)).1⟩

/-- C9: an item whose status is not "active" is invisible to the sweep:
the tick over a list containing it produces exactly the state of the tick
over the list without it — no sample appended, no rate computed, no record
created, nothing even logged for it. -/
theorem paused_item_untouched (fetch : String → FetchOutcome)
    (sendOutcome : String → String → Bool) (df : Bool) (now : Int)
    (pre post : List Video) (v : Video) (st : TickState)
    (hv : v.status ≠ "active") :
    runTick fetch sendOutcome df now (pre ++ v :: post) st =
      runTick fetch sendOutcome df now (pre ++ post) st := by
  have hb : (v.status == "active") = false := by simp [hv]
  simp [runTick, List.filter_append, List.filter_cons, hb]

/-- Witness for `paused_item_untouched`: a paused item is skipped by the
sweep. -/
theorem paused_item_untouched_witness :
    ("paused" : String) ≠ "active" ∧
    runTick (fun _ => FetchOutcome.ok 5) (fun _ _ => true) false 1
      ([] ++ (⟨"p", "T", "th", "u", 30, 80, "paused", none⟩ : Video) :: [])
      ⟨[], [], [], []⟩ =
    runTick (fun _ => FetchOutcome.ok 5) (fun _ _ => true) false 1 ([] ++ [])
      ⟨[], [], [], []⟩ :=
  ⟨by decide,
    paused_item_untouched (fun _ => FetchOutcome.ok 5) (fun _ _ => true) false 1
      [] [] ⟨"p", "T", "th", "u", 30, 80, "paused", none⟩ ⟨[], [], [], []⟩
      (by decide)⟩

end ViewTracking
